import Mathlib

/-!
Verification of the control core of `src/Thermostat.py` (LILYGO T-Display S3
MQTT thermostat).  The MicroPython globals that the control logic reads and
writes are collected into one record `TState`; every function below is a
direct translation of the corresponding Python function, threading the state
explicitly and returning the list of MQTT messages it publishes.  Display
rendering (`update_display`, the blink timer, labels, the temperature arc)
writes only to the screen, publishes nothing over MQTT and mutates none of
the control globals, so it is dropped from the embedding.
-/

namespace Thermostat

/-- `THERMO_MIN_TARGET = 15` (src/Thermostat.py:155). -/
def THERMO_MIN_TARGET : Int := 15

/-- `THERMO_MAX_TARGET = 25` (src/Thermostat.py:156). -/
def THERMO_MAX_TARGET : Int := 25

/-- `THERMO_MIN_CYCLE = 5` seconds (src/Thermostat.py:157). -/
def THERMO_MIN_CYCLE : Nat := 5

/-- `THERMO_COLD_TOLERANCE = 0.5` C (src/Thermostat.py:158). -/
def THERMO_COLD_TOLERANCE : ℚ := mkRat 1 2

/-- `THERMO_HEAT_TOLERANCE = 0.5` C (src/Thermostat.py:159). -/
def THERMO_HEAT_TOLERANCE : ℚ := mkRat 1 2

/-- `THERMO_MODES = ["off", "auto", "man", "heat", "cool", "fan"]`
(src/Thermostat.py:161). -/
def THERMO_MODES : List String := ["off", "auto", "man", "heat", "cool", "fan"]

/-- The control-relevant MicroPython globals of `src/Thermostat.py`.
`manual_command` is initialised to the integer `0` in the source and later
holds one of six command strings; since `0` compares unequal to every string,
it is embedded as `Option String` with `none` for the initial `0`.
`slider_value` is the value stored in the `lv.slider` widget `slider_target`;
`target_temp` is the global refreshed from it at each evaluation.
Display-only globals (`action`, `blink`, `cycle`, `ticks`) are omitted. -/
structure TState where
  thermo_state : String
  target_temp : Int
  actual_temp : ℚ
  heating_state : Nat
  cooling_state : Nat
  fan_state : Nat
  manual_command : Option String
  delay : Nat
  change_ignored : Nat
  slider_value : Int
  deriving DecidableEq, Repr

/-- One MQTT publication, by topic family (payload kept verbatim). -/
inductive Pub where
  | relayHeat (payload : String)
  | relayCool (payload : String)
  | relayFan (payload : String)
  | actionTopic (payload : String)
  | modeState (payload : String)
  | targetState (payload : Int)
  deriving DecidableEq, Repr

/-- `thermostat_init` (src/Thermostat.py:392-409): mode `"off"`, slider set to
20 and `target_temp` read back from it, all appliances off, `delay = 0`,
`change_ignored = 0`, `manual_command = 0` (here `none`); `actual_temp` is the
DHT22 reading taken at that moment, passed in as `sensed`. -/
def thermostat_init (sensed : ℚ) : TState :=
  { thermo_state := "off"
    target_temp := 20
    actual_temp := sensed
    heating_state := 0
    cooling_state := 0
    fan_state := 0
    manual_command := none
    delay := 0
    change_ignored := 0
    slider_value := 20 }

/-- `change_to(action)` (src/Thermostat.py:653-705).  When `delay == 0 or
THERMO_MIN_CYCLE == 0` the change is admitted: `change_ignored = 0`, the
requested relay is published together with the action topic, the appliance
states are flipped (an on-request also switches the other two appliances off,
publishing their relay-off messages), and `delay = THERMO_MIN_CYCLE`.
Otherwise the request is ignored: `change_ignored = 1` and nothing else
changes (`update_display()` touches only the screen). -/
def change_to (a : String) (s : TState) : TState × List Pub :=
  if s.delay = 0 ∨ THERMO_MIN_CYCLE = 0 then
    if a = "heating on" then
      ({ s with
         change_ignored := 0
         heating_state := 1
         cooling_state := if s.cooling_state = 1 then 0 else s.cooling_state
         fan_state := if s.fan_state = 1 then 0 else s.fan_state
         delay := THERMO_MIN_CYCLE },
       [Pub.relayHeat "ON", Pub.actionTopic "heating"]
         ++ (if s.cooling_state = 1 then [Pub.relayCool "OFF"] else [])
         ++ (if s.fan_state = 1 then [Pub.relayFan "OFF"] else []))
    else if a = "cooling on" then
      ({ s with
         change_ignored := 0
         cooling_state := 1
         heating_state := if s.heating_state = 1 then 0 else s.heating_state
         fan_state := if s.fan_state = 1 then 0 else s.fan_state
         delay := THERMO_MIN_CYCLE },
       [Pub.relayCool "ON", Pub.actionTopic "cooling"]
         ++ (if s.heating_state = 1 then [Pub.relayHeat "OFF"] else [])
         ++ (if s.fan_state = 1 then [Pub.relayFan "OFF"] else []))
    else if a = "fan on" then
      ({ s with
         change_ignored := 0
         fan_state := 1
         heating_state := if s.heating_state = 1 then 0 else s.heating_state
         cooling_state := if s.cooling_state = 1 then 0 else s.cooling_state
         delay := THERMO_MIN_CYCLE },
       [Pub.relayFan "ON", Pub.actionTopic "fan"]
         ++ (if s.heating_state = 1 then [Pub.relayHeat "OFF"] else [])
         ++ (if s.cooling_state = 1 then [Pub.relayCool "OFF"] else []))
    else if a = "heating off" then
      ({ s with change_ignored := 0, heating_state := 0, delay := THERMO_MIN_CYCLE },
       [Pub.relayHeat "OFF", Pub.actionTopic "idle"])
    else if a = "cooling off" then
      ({ s with change_ignored := 0, cooling_state := 0, delay := THERMO_MIN_CYCLE },
       [Pub.relayCool "OFF", Pub.actionTopic "idle"])
    else if a = "fan off" then
      ({ s with change_ignored := 0, fan_state := 0, delay := THERMO_MIN_CYCLE },
       [Pub.relayFan "OFF", Pub.actionTopic "idle"])
    else
      ({ s with change_ignored := 0, delay := THERMO_MIN_CYCLE }, [])
  else
    ({ s with change_ignored := 1 }, [])

/-- The manual-mode branch of `thermostat_decision_logic`
(src/Thermostat.py:590-606): the transition it requests, if any. -/
def manualRequest (s : TState) : Option String :=
  if s.manual_command = some "heating on" ∧ s.heating_state = 0 then some "heating on"
  else if s.manual_command = some "heating off" ∧ s.heating_state = 1 then some "heating off"
  else if s.manual_command = some "cooling on" ∧ s.cooling_state = 0 then some "cooling on"
  else if s.manual_command = some "cooling off" ∧ s.cooling_state = 1 then some "cooling off"
  else if s.manual_command = some "fan on" ∧ s.fan_state = 0 then some "fan on"
  else if s.manual_command = some "fan off" ∧ s.fan_state = 1 then some "fan off"
  else none

/-- The non-manual branch of `thermostat_decision_logic`
(src/Thermostat.py:608-648): the six conditions in source order, as nested
if/elif, returning the transition it requests, if any.  The mode lists spell
out the comprehensions `[THERMO_MODES[index] for index in [...]]`. -/
def autoRequest (s : TState) : Option String :=
  if s.actual_temp ≤ (s.target_temp : ℚ) - THERMO_COLD_TOLERANCE ∧ s.heating_state = 0 ∧
      s.thermo_state ∈ ["auto", "heat"] then
    some "heating on"
  else if (s.target_temp : ℚ) + THERMO_HEAT_TOLERANCE ≤ s.actual_temp ∧ s.cooling_state = 0 ∧
      s.thermo_state ∈ ["auto", "cool"] then
    some "cooling on"
  else if (s.target_temp : ℚ) + THERMO_HEAT_TOLERANCE ≤ s.actual_temp ∧ s.fan_state = 0 ∧
      s.thermo_state ∈ ["fan"] then
    some "fan on"
  else if ((s.target_temp : ℚ) ≤ s.actual_temp ∨ s.thermo_state ∈ ["off", "cool", "fan"]) ∧
      s.heating_state = 1 then
    some "heating off"
  else if (s.actual_temp ≤ (s.target_temp : ℚ) ∨ s.thermo_state ∈ ["off", "heat", "fan"]) ∧
      s.cooling_state = 1 then
    some "cooling off"
  else if (s.actual_temp ≤ (s.target_temp : ℚ) ∨ s.thermo_state ∈ ["off", "heat", "cool"]) ∧
      s.fan_state = 1 then
    some "fan off"
  else none

/-- The transition request a single run of `thermostat_decision_logic` makes
on a state (after `actual_temp`/`target_temp` have been refreshed): the
manual branch when `thermo_state == THERMO_MODES[2]`, the six-condition chain
otherwise.  Each run calls `change_to` on at most this one request. -/
def decisionRequest (s : TState) : Option String :=
  if s.thermo_state = "man" then manualRequest s else autoRequest s

/-- The first two statements of `thermostat_decision_logic`
(src/Thermostat.py:586-588): `actual_temp` is re-read from the DHT22 (the
fresh reading is the argument `sensed`) and `target_temp` from the slider. -/
def evalState (sensed : ℚ) (s : TState) : TState :=
  { s with actual_temp := sensed, target_temp := s.slider_value }

/-- The request a run of `thermostat_decision_logic` makes, as a function of
the sensor reading it observes. -/
def evalRequest (sensed : ℚ) (s : TState) : Option String :=
  decisionRequest (evalState sensed s)

/-- `thermostat_decision_logic()` (src/Thermostat.py:585-648): refresh
`actual_temp` and `target_temp`, then dispatch `change_to` on the single
request of `decisionRequest`; with no request nothing but the display
changes. -/
def thermostat_decision_logic (sensed : ℚ) (s : TState) : TState × List Pub :=
  match decisionRequest (evalState sensed s) with
  | some a => change_to a (evalState sensed s)
  | none => (evalState sensed s, [])

/-- Python `round` (round half to even), applied in `rcv_target_temp` to the
parsed payload. -/
def pyRound (q : ℚ) : Int :=
  if q - ⌊q⌋ < 1/2 then ⌊q⌋
  else if 1/2 < q - ⌊q⌋ then ⌊q⌋ + 1
  else if ⌊q⌋ % 2 = 0 then ⌊q⌋ else ⌊q⌋ + 1

/-- `slider_target.set_value` on the widget configured with
`slider_target.set_range(THERMO_MIN_TARGET, THERMO_MAX_TARGET)`
(src/Thermostat.py:230-231): the LVGL slider stores the value clamped into
its configured range. -/
def sliderSet (v : Int) : Int := max THERMO_MIN_TARGET (min THERMO_MAX_TARGET v)

/-- `rcv_target_temp` (src/Thermostat.py:759-762): store the rounded payload
in the slider, then run the decision logic. -/
def rcv_target_temp (v : ℚ) (sensed : ℚ) (s : TState) : TState × List Pub :=
  thermostat_decision_logic sensed { s with slider_value := sliderSet (pyRound v) }

/-- `rcv_thermo_state` (src/Thermostat.py:764-768): store the payload as the
mode verbatim, except `"fan_only"` which becomes `"fan"`; publish the mode
state; run the decision logic. -/
def rcv_thermo_state (tok : String) (sensed : ℚ) (s : TState) : TState × List Pub :=
  ((thermostat_decision_logic sensed
      { s with thermo_state := if tok = "fan_only" then "fan" else tok }).1,
   Pub.modeState (if tok = "fan_only" then "fan" else tok) ::
     (thermostat_decision_logic sensed
       { s with thermo_state := if tok = "fan_only" then "fan" else tok }).2)

/-- `rcv_heater_status` (src/Thermostat.py:770-774): force the mode to
`THERMO_MODES[2]` (`"man"`), set `manual_command` from the payload
(`RELAY_HEAT_PAYLOAD_ON = "ON"`), run the decision logic. -/
def rcv_heater_status (payload : String) (sensed : ℚ) (s : TState) : TState × List Pub :=
  thermostat_decision_logic sensed
    { s with thermo_state := "man",
             manual_command := some (if payload = "ON" then "heating on" else "heating off") }

/-- `rcv_ac_status` (src/Thermostat.py:776-780): as `rcv_heater_status` with
the cooling command (`RELAY_COOL_PAYLOAD_ON = "ON"`). -/
def rcv_ac_status (payload : String) (sensed : ℚ) (s : TState) : TState × List Pub :=
  thermostat_decision_logic sensed
    { s with thermo_state := "man",
             manual_command := some (if payload = "ON" then "cooling on" else "cooling off") }

/-- `rcv_master_off` (src/Thermostat.py:782-785): force the mode to
`THERMO_MODES[0]` (`"off"`) and run the decision logic. -/
def rcv_master_off (sensed : ℚ) (s : TState) : TState × List Pub :=
  thermostat_decision_logic sensed { s with thermo_state := "off" }

/-- `change_mode` (src/Thermostat.py:202-208), the touch-button callback:
advance the mode to `THERMO_MODES[(THERMO_MODES.index(thermo_state) + 1) % 6]`,
publish the mode state, run the decision logic. -/
def nextMode (m : String) : String :=
  THERMO_MODES.getD ((THERMO_MODES.indexOf m + 1) % 6) "off"

def change_mode (sensed : ℚ) (s : TState) : TState × List Pub :=
  ((thermostat_decision_logic sensed { s with thermo_state := nextMode s.thermo_state }).1,
   Pub.modeState (nextMode s.thermo_state) ::
     (thermostat_decision_logic sensed { s with thermo_state := nextMode s.thermo_state }).2)

/-- Button A in the main loop (src/Thermostat.py:803-808), reached only when
`thermo_state == THERMO_MODES[2]`: set `manual_command` from the current
heating state, run the decision logic. -/
def btnA_press (sensed : ℚ) (s : TState) : TState × List Pub :=
  thermostat_decision_logic sensed
    { s with manual_command :=
        if s.heating_state = 0 then some "heating on"
        else if s.heating_state = 1 then some "heating off"
        else s.manual_command }

/-- Button B in the main loop (src/Thermostat.py:810-815). -/
def btnB_press (sensed : ℚ) (s : TState) : TState × List Pub :=
  thermostat_decision_logic sensed
    { s with manual_command :=
        if s.cooling_state = 0 then some "cooling on"
        else if s.cooling_state = 1 then some "cooling off"
        else s.manual_command }

/-- Button C in the main loop (src/Thermostat.py:817-822). -/
def btnC_press (sensed : ℚ) (s : TState) : TState × List Pub :=
  thermostat_decision_logic sensed
    { s with manual_command :=
        if s.fan_state = 0 then some "fan on"
        else if s.fan_state = 1 then some "fan off"
        else s.manual_command }

/-- `tdelayed_start` (src/Thermostat.py:722-728), one tick of the
`delayed_start` timer (scheduled while `delay` counts down): decrement
`delay`; when it reaches 0 stop the timer and re-run the decision logic. -/
def tdelayed_start (sensed : ℚ) (s : TState) : TState × List Pub :=
  if s.delay - 1 = 0 then thermostat_decision_logic sensed { s with delay := s.delay - 1 }
  else ({ s with delay := s.delay - 1 }, [])

/-- `slider_target_changed` (src/Thermostat.py:753-757): the slider callback
after a local adjustment to `v` (stored clamped by the widget); it publishes
the new value and runs the decision logic. -/
def slider_target_changed (v : Int) (sensed : ℚ) (s : TState) : TState × List Pub :=
  ((thermostat_decision_logic sensed { s with slider_value := sliderSet v }).1,
   Pub.targetState (sliderSet v) ::
     (thermostat_decision_logic sensed { s with slider_value := sliderSet v }).2)

/-- One control-loop event.  Every path of the program that mutates the
control globals after `thermostat_init` is one of these: a decision-logic
run (periodic tick at line 824-825, `rcv_discovery`, initial run at line
797), the mode touch button, the A/B/C buttons (guarded in the main loop by
`thermo_state == THERMO_MODES[2]`), the five MQTT command handlers, the
slider callback, and one countdown tick of the `delayed_start` timer (which
runs only while `delay > 0`).  Each event carries the DHT22 reading `t` its
decision-logic run observes. -/
inductive Step : TState → TState → Prop where
  | eval (t : ℚ) (s : TState) : Step s (thermostat_decision_logic t s).1
  | modeBtn (t : ℚ) (s : TState) : Step s (change_mode t s).1
  | btnA (t : ℚ) (s : TState) (h : s.thermo_state = "man") : Step s (btnA_press t s).1
  | btnB (t : ℚ) (s : TState) (h : s.thermo_state = "man") : Step s (btnB_press t s).1
  | btnC (t : ℚ) (s : TState) (h : s.thermo_state = "man") : Step s (btnC_press t s).1
  | rcvTarget (v : ℚ) (t : ℚ) (s : TState) : Step s (rcv_target_temp v t s).1
  | rcvMode (tok : String) (t : ℚ) (s : TState) : Step s (rcv_thermo_state tok t s).1
  | rcvHeater (p : String) (t : ℚ) (s : TState) : Step s (rcv_heater_status p t s).1
  | rcvAC (p : String) (t : ℚ) (s : TState) : Step s (rcv_ac_status p t s).1
  | rcvMasterOff (t : ℚ) (s : TState) : Step s (rcv_master_off t s).1
  | slider (v : Int) (t : ℚ) (s : TState) : Step s (slider_target_changed v t s).1
  | delayTick (t : ℚ) (s : TState) (h : 0 < s.delay) : Step s (tdelayed_start t s).1

/-- The states the control loop can reach: `thermostat_init` under any first
reading, closed under `Step`. -/
inductive Reachable : TState → Prop where
  | init (t : ℚ) : Reachable (thermostat_init t)
  | step {s s2 : TState} : Reachable s → Step s s2 → Reachable s2

/-- The mutual-exclusion measure: the sum of the three appliance flags. -/
def applianceSum (s : TState) : Nat :=
  s.heating_state + s.cooling_state + s.fan_state

lemma change_to_applianceSum (a : String) (s : TState) (h : applianceSum s ≤ 1) :
    applianceSum (change_to a s).1 ≤ 1 := by
  unfold applianceSum change_to at *
  split_ifs <;> simp <;> omega

lemma change_to_fixed (a : String) (s : TState) :
    (change_to a s).1.thermo_state = s.thermo_state ∧
    (change_to a s).1.manual_command = s.manual_command ∧
    (change_to a s).1.target_temp = s.target_temp ∧
    (change_to a s).1.slider_value = s.slider_value ∧
    (change_to a s).1.actual_temp = s.actual_temp := by
  unfold change_to
  split_ifs <;> simp

lemma tdl_fixed (t : ℚ) (s : TState) :
    ((thermostat_decision_logic t s).1).thermo_state = s.thermo_state ∧
    ((thermostat_decision_logic t s).1).manual_command = s.manual_command ∧
    ((thermostat_decision_logic t s).1).slider_value = s.slider_value ∧
    ((thermostat_decision_logic t s).1).target_temp = s.slider_value := by
  unfold thermostat_decision_logic
  rcases hreq : decisionRequest (evalState t s) with _ | a
  · simp [evalState]
  · obtain ⟨h1, h2, h3, h4, -⟩ := change_to_fixed a (evalState t s)
    simp only [evalState] at h1 h2 h3 h4
    exact ⟨h1, h2, h4, h3⟩

lemma tdl_applianceSum (t : ℚ) (s : TState) (h : applianceSum s ≤ 1) :
    applianceSum (thermostat_decision_logic t s).1 ≤ 1 := by
  unfold thermostat_decision_logic
  rcases hreq : decisionRequest (evalState t s) with _ | a
  · simpa [applianceSum, evalState] using h
  · exact change_to_applianceSum a _ (by simpa [applianceSum, evalState] using h)

lemma step_applianceSum {s s2 : TState} (hs : Step s s2) (h : applianceSum s ≤ 1) :
    applianceSum s2 ≤ 1 := by
  cases hs with
  | eval t s => exact tdl_applianceSum t s h
  | modeBtn t s =>
      unfold change_mode
      exact tdl_applianceSum t _ (by simpa [applianceSum] using h)
  | btnA t s _ =>
      unfold btnA_press
      exact tdl_applianceSum t _ (by simpa [applianceSum] using h)
  | btnB t s _ =>
      unfold btnB_press
      exact tdl_applianceSum t _ (by simpa [applianceSum] using h)
  | btnC t s _ =>
      unfold btnC_press
      exact tdl_applianceSum t _ (by simpa [applianceSum] using h)
  | rcvTarget v t s =>
      unfold rcv_target_temp
      exact tdl_applianceSum t _ (by simpa [applianceSum] using h)
  | rcvMode tok t s =>
      unfold rcv_thermo_state
      exact tdl_applianceSum t _ (by simpa [applianceSum] using h)
  | rcvHeater p t s =>
      unfold rcv_heater_status
      exact tdl_applianceSum t _ (by simpa [applianceSum] using h)
  | rcvAC p t s =>
      unfold rcv_ac_status
      exact tdl_applianceSum t _ (by simpa [applianceSum] using h)
  | rcvMasterOff t s =>
      unfold rcv_master_off
      exact tdl_applianceSum t _ (by simpa [applianceSum] using h)
  | slider v t s =>
      unfold slider_target_changed
      exact tdl_applianceSum t _ (by simpa [applianceSum] using h)
  | delayTick t s _ =>
      unfold tdelayed_start
      split_ifs with h0
      · exact tdl_applianceSum t _ (by simpa [applianceSum] using h)
      · simpa [applianceSum] using h

lemma reachable_applianceSum {s : TState} (h : Reachable s) : applianceSum s ≤ 1 := by
  induction h with
  | init t => simp [applianceSum, thermostat_init]
  | step _ hs ih => exact step_applianceSum hs ih

/-- C1: in every reachable state of the control loop — from `thermostat_init`
under any sequence of evaluations, button presses, remote commands,
slider/mode changes, and `delayed_start` ticks (each `change_to` admitted or
deferred inside them) — at most one of `heating_state`, `cooling_state`,
`fan_state` equals 1. -/
theorem appliance_mutual_exclusion {s : TState} (h : Reachable s) :
    ¬(s.heating_state = 1 ∧ s.cooling_state = 1) ∧
    ¬(s.heating_state = 1 ∧ s.fan_state = 1) ∧
    ¬(s.cooling_state = 1 ∧ s.fan_state = 1) := by
  have hsum := reachable_applianceSum h
  unfold applianceSum at hsum
  omega

/-- Witness for C1 at the concrete initial state `thermostat_init 20`. -/
theorem appliance_mutual_exclusion_witness :
    ¬((thermostat_init 20).heating_state = 1 ∧ (thermostat_init 20).cooling_state = 1) ∧
    ¬((thermostat_init 20).heating_state = 1 ∧ (thermostat_init 20).fan_state = 1) ∧
    ¬((thermostat_init 20).cooling_state = 1 ∧ (thermostat_init 20).fan_state = 1) :=
  appliance_mutual_exclusion (Reachable.init 20)

/-- The appliance flip each of the six requests asks for: an on-request turns
its appliance on and the other two off, an off-request turns only its own
appliance off. -/
def flipOf (a : String) (h c f : Nat) : Nat × Nat × Nat :=
  if a = "heating on" then (1, 0, 0)
  else if a = "cooling on" then (0, 1, 0)
  else if a = "fan on" then (0, 0, 1)
  else if a = "heating off" then (0, c, f)
  else if a = "cooling off" then (h, 0, f)
  else if a = "fan off" then (h, c, 0)
  else (h, c, f)

/-- The action-topic payload announced for each request:
`"heating"`/`"cooling"`/`"fan"` for the on-requests, `"idle"` for the
off-requests. -/
def actionLabel (a : String) : String :=
  if a = "heating on" then "heating"
  else if a = "cooling on" then "cooling"
  else if a = "fan on" then "fan"
  else "idle"

/-- C2: `change_to(action)` applies an appliance flip exactly when
`delay == 0` or `THERMO_MIN_CYCLE == 0`.  On admission it applies the
requested flip (an on-request implicitly turning the other two appliances
off), resets `delay` to `THERMO_MIN_CYCLE`, clears `change_ignored`, and
publishes the action notification (`"heating"`/`"cooling"`/`"fan"`/`"idle"`).
Otherwise it defers: `change_ignored` becomes 1 and the three appliance
states, `delay`, and the outbound queue are untouched. -/
theorem change_to_gate (s : TState) (a : String)
    (ha : a ∈ ["heating on", "cooling on", "fan on", "heating off", "cooling off", "fan off"])
    (hh : s.heating_state ≤ 1) (hc : s.cooling_state ≤ 1) (hf : s.fan_state ≤ 1) :
    ((s.delay = 0 ∨ THERMO_MIN_CYCLE = 0) →
      ((change_to a s).1.heating_state, (change_to a s).1.cooling_state,
          (change_to a s).1.fan_state) =
        flipOf a s.heating_state s.cooling_state s.fan_state ∧
      (change_to a s).1.delay = THERMO_MIN_CYCLE ∧
      (change_to a s).1.change_ignored = 0 ∧
      Pub.actionTopic (actionLabel a) ∈ (change_to a s).2) ∧
    (¬(s.delay = 0 ∨ THERMO_MIN_CYCLE = 0) →
      (change_to a s).1.heating_state = s.heating_state ∧
      (change_to a s).1.cooling_state = s.cooling_state ∧
      (change_to a s).1.fan_state = s.fan_state ∧
      (change_to a s).1.delay = s.delay ∧
      (change_to a s).1.change_ignored = 1 ∧
      (change_to a s).2 = []) := by
  constructor
  · intro hadm
    unfold change_to flipOf actionLabel
    rw [if_pos hadm]
    fin_cases ha <;> simp <;> omega
  · intro hdef
    unfold change_to
    rw [if_neg hdef]
    simp

/-- Witness for C2: `change_to "heating on"` admitted at `thermostat_init 20`
(where `delay = 0`). -/
theorem change_to_gate_witness :
    ((change_to "heating on" (thermostat_init 20)).1.heating_state,
        (change_to "heating on" (thermostat_init 20)).1.cooling_state,
        (change_to "heating on" (thermostat_init 20)).1.fan_state) =
      flipOf "heating on" 0 0 0 ∧
    (change_to "heating on" (thermostat_init 20)).1.delay = THERMO_MIN_CYCLE ∧
    (change_to "heating on" (thermostat_init 20)).1.change_ignored = 0 ∧
    Pub.actionTopic (actionLabel "heating on") ∈ (change_to "heating on" (thermostat_init 20)).2 :=
  (change_to_gate (thermostat_init 20) "heating on" (by decide) (by decide) (by decide)
    (by decide)).1 (Or.inl (by decide))

/-- A first-match scan over condition/request pairs: the request attached to
the first condition that holds, `none` when none does. -/
def firstMatch : List (Bool × String) → Option String
  | [] => none
  | (c, a) :: rest => if c then some a else firstMatch rest

/-- Transition condition 1, heat-on. -/
def condHeatOn (s : TState) : Bool :=
  decide (s.actual_temp ≤ (s.target_temp : ℚ) - THERMO_COLD_TOLERANCE ∧ s.heating_state = 0 ∧
    s.thermo_state ∈ ["auto", "heat"])

/-- Transition condition 2, cool-on. -/
def condCoolOn (s : TState) : Bool :=
  decide ((s.target_temp : ℚ) + THERMO_HEAT_TOLERANCE ≤ s.actual_temp ∧ s.cooling_state = 0 ∧
    s.thermo_state ∈ ["auto", "cool"])

/-- Transition condition 3, fan-on. -/
def condFanOn (s : TState) : Bool :=
  decide ((s.target_temp : ℚ) + THERMO_HEAT_TOLERANCE ≤ s.actual_temp ∧ s.fan_state = 0 ∧
    s.thermo_state ∈ ["fan"])

/-- Transition condition 4, heat-off. -/
def condHeatOff (s : TState) : Bool :=
  decide (((s.target_temp : ℚ) ≤ s.actual_temp ∨ s.thermo_state ∈ ["off", "cool", "fan"]) ∧
    s.heating_state = 1)

/-- Transition condition 5, cool-off. -/
def condCoolOff (s : TState) : Bool :=
  decide ((s.actual_temp ≤ (s.target_temp : ℚ) ∨ s.thermo_state ∈ ["off", "heat", "fan"]) ∧
    s.cooling_state = 1)

/-- Transition condition 6, fan-off. -/
def condFanOff (s : TState) : Bool :=
  decide ((s.actual_temp ≤ (s.target_temp : ℚ) ∨ s.thermo_state ∈ ["off", "heat", "cool"]) ∧
    s.fan_state = 1)

/-- C4: outside Manual mode, one run of the decision logic tests the six
transition conditions in the fixed order heat-on, cool-on, fan-on, heat-off,
cool-off, fan-off and requests the action of the first condition that holds;
`thermostat_decision_logic` then invokes `change_to` on this single optional
request, so each evaluation issues at most one transition request. -/
theorem decision_logic_order (s : TState) (h : s.thermo_state ≠ "man") :
    decisionRequest s =
      firstMatch
        [(condHeatOn s, "heating on"), (condCoolOn s, "cooling on"), (condFanOn s, "fan on"),
         (condHeatOff s, "heating off"), (condCoolOff s, "cooling off"),
         (condFanOff s, "fan off")] := by
  unfold decisionRequest
  rw [if_neg h]
  simp only [autoRequest, firstMatch, condHeatOn, condCoolOn, condFanOn, condHeatOff,
    condCoolOff, condFanOff, decide_eq_true_eq]

/-- Witness for C4 at a concrete non-manual state. -/
theorem decision_logic_order_witness :
    decisionRequest (thermostat_init 20) =
      firstMatch
        [(condHeatOn (thermostat_init 20), "heating on"),
         (condCoolOn (thermostat_init 20), "cooling on"),
         (condFanOn (thermostat_init 20), "fan on"),
         (condHeatOff (thermostat_init 20), "heating off"),
         (condCoolOff (thermostat_init 20), "cooling off"),
         (condFanOff (thermostat_init 20), "fan off")] :=
  decision_logic_order (thermostat_init 20) (by decide)

/-- C5: in Manual mode, re-applying a manual command whose target appliance
is already in the commanded state is idempotent: the run of the decision
logic makes no transition request, publishes nothing, and changes nothing
but the refreshed `actual_temp`/`target_temp` — `heating_state`,
`cooling_state`, `fan_state`, `delay`, `change_ignored` all keep their
values. -/
theorem manual_command_idempotent (s : TState) (sensed : ℚ)
    (hm : s.thermo_state = "man")
    (hc : (s.manual_command = some "heating on" ∧ s.heating_state = 1) ∨
          (s.manual_command = some "heating off" ∧ s.heating_state = 0) ∨
          (s.manual_command = some "cooling on" ∧ s.cooling_state = 1) ∨
          (s.manual_command = some "cooling off" ∧ s.cooling_state = 0) ∨
          (s.manual_command = some "fan on" ∧ s.fan_state = 1) ∨
          (s.manual_command = some "fan off" ∧ s.fan_state = 0)) :
    evalRequest sensed s = none ∧
    (thermostat_decision_logic sensed s).1 = evalState sensed s ∧
    (thermostat_decision_logic sensed s).2 = [] := by
  have hreq : decisionRequest (evalState sensed s) = none := by
    unfold decisionRequest manualRequest evalState
    rcases hc with ⟨h1, h2⟩ | ⟨h1, h2⟩ | ⟨h1, h2⟩ | ⟨h1, h2⟩ | ⟨h1, h2⟩ | ⟨h1, h2⟩ <;>
      simp [hm, h1, h2]
  refine ⟨hreq, ?_, ?_⟩ <;> simp [thermostat_decision_logic, hreq]

/-- The concrete C5 scenario: Manual mode, `manual_command = "heating on"`
while heating is already on. -/
def manualIdemState : TState :=
  { thermo_state := "man", target_temp := 20, actual_temp := 20, heating_state := 1,
    cooling_state := 0, fan_state := 0, manual_command := some "heating on", delay := 0,
    change_ignored := 0, slider_value := 20 }

/-- Witness for C5: re-applying `"heating on"` while heating is on. -/
theorem manual_command_idempotent_witness :
    evalRequest 20 manualIdemState = none ∧
    (thermostat_decision_logic 20 manualIdemState).1 = evalState 20 manualIdemState ∧
    (thermostat_decision_logic 20 manualIdemState).2 = [] :=
  manual_command_idempotent manualIdemState 20 rfl (Or.inl ⟨rfl, rfl⟩)

/-- C8: a remote manual appliance command (heater or AC switch command)
arriving while the thermostat is not in Manual mode first forces the mode to
`"man"` and then installs the decoded payload as the pending manual command;
both survive the decision-logic run the handler triggers, so manual device
control always implies Manual mode. -/
theorem remote_manual_forces_manual_mode (payload : String) (t : ℚ) (s : TState)
    (h : s.thermo_state ≠ "man") :
    ((rcv_heater_status payload t s).1.thermo_state = "man" ∧
     (rcv_heater_status payload t s).1.manual_command =
       some (if payload = "ON" then "heating on" else "heating off")) ∧
    ((rcv_ac_status payload t s).1.thermo_state = "man" ∧
     (rcv_ac_status payload t s).1.manual_command =
       some (if payload = "ON" then "cooling on" else "cooling off")) := by
  unfold rcv_heater_status rcv_ac_status
  refine ⟨⟨?_, ?_⟩, ⟨?_, ?_⟩⟩
  · simpa using (tdl_fixed t { s with
      thermo_state := "man"
      manual_command := some (if payload = "ON" then "heating on" else "heating off") }).1
  · simpa using (tdl_fixed t { s with
      thermo_state := "man"
      manual_command := some (if payload = "ON" then "heating on" else "heating off") }).2.1
  · simpa using (tdl_fixed t { s with
      thermo_state := "man"
      manual_command := some (if payload = "ON" then "cooling on" else "cooling off") }).1
  · simpa using (tdl_fixed t { s with
      thermo_state := "man"
      manual_command := some (if payload = "ON" then "cooling on" else "cooling off") }).2.1

/-- Witness for C8: payload `"ON"` received in the initial (Off-mode)
state. -/
theorem remote_manual_forces_manual_mode_witness :
    ((rcv_heater_status "ON" 20 (thermostat_init 20)).1.thermo_state = "man" ∧
     (rcv_heater_status "ON" 20 (thermostat_init 20)).1.manual_command =
       some (if "ON" = "ON" then "heating on" else "heating off")) ∧
    ((rcv_ac_status "ON" 20 (thermostat_init 20)).1.thermo_state = "man" ∧
     (rcv_ac_status "ON" 20 (thermostat_init 20)).1.manual_command =
       some (if "ON" = "ON" then "cooling on" else "cooling off")) :=
  remote_manual_forces_manual_mode "ON" 20 (thermostat_init 20) (by decide)

unseal Rat.add Rat.sub in
/-- C9 counterexample: the unknown remote mode token `"purple"` is not
ignored — `rcv_thermo_state` stores it verbatim, leaving `thermo_state`
outside the six known modes when the decision logic runs. -/
theorem unknown_mode_not_ignored :
    ((rcv_thermo_state "purple" 20 (thermostat_init 20)).1).thermo_state = "purple" ∧
    "purple" ∉ THERMO_MODES := by decide

/-- C9 amended: a remote target temperature is indeed clamped into
`[THERMO_MIN_TARGET, THERMO_MAX_TARGET]` (through the slider range), so
`target_temp` is in bounds whenever the decision logic runs after
`rcv_target_temp`; but mode tokens are not validated: `rcv_thermo_state`
stores any token other than `"fan_only"` verbatim (`"fan_only"` becomes
`"fan"`), so `thermo_state` need not be one of the six known modes. -/
theorem boundary_handling (v : ℚ) (t : ℚ) (s : TState) :
    THERMO_MIN_TARGET ≤ (rcv_target_temp v t s).1.target_temp ∧
    (rcv_target_temp v t s).1.target_temp ≤ THERMO_MAX_TARGET ∧
    ∀ tok : String,
      (rcv_thermo_state tok t s).1.thermo_state = (if tok = "fan_only" then "fan" else tok) := by
  have htgt : (rcv_target_temp v t s).1.target_temp = sliderSet (pyRound v) := by
    unfold rcv_target_temp
    simpa using (tdl_fixed t { s with slider_value := sliderSet (pyRound v) }).2.2.2
  refine ⟨?_, ?_, ?_⟩
  · rw [htgt]; unfold sliderSet THERMO_MIN_TARGET THERMO_MAX_TARGET; omega
  · rw [htgt]; unfold sliderSet THERMO_MIN_TARGET THERMO_MAX_TARGET; omega
  · intro tok
    unfold rcv_thermo_state
    simpa using
      (tdl_fixed t { s with thermo_state := if tok = "fan_only" then "fan" else tok }).1

/-- The C3 hysteresis scenario with heating already on: mode auto, slider
target 20, heating on (cooling and fan off, as mutual exclusion gives). -/
def hysteresisHeatingOn : TState :=
  { thermo_state := "auto", target_temp := 20, actual_temp := 20, heating_state := 1,
    cooling_state := 0, fan_state := 0, manual_command := none, delay := 0,
    change_ignored := 0, slider_value := 20 }

unseal Rat.add Rat.sub in
/-- C3 counterexample: in mode auto with target 20, heating on, at actual
temperature 20.5 (which is ≥ 20) the evaluation requests `"cooling on"` —
the cool-on condition precedes heat-off in the chain — and not
`"heating off"`, so the claimed equivalence fails in its ≥-direction. -/
theorem heating_off_iff_counterexample :
    (20 : ℚ) ≤ mkRat 41 2 ∧
    evalRequest (mkRat 41 2) hysteresisHeatingOn = some "cooling on" ∧
    evalRequest (mkRat 41 2) hysteresisHeatingOn ≠ some "heating off" := by decide

/-- C3 amended: in mode auto with target 20 and `THERMO_COLD_TOLERANCE =
0.5`, an evaluation at 19.4 with heating off requests `"heating on"`; while
heating is on, the evaluation requests `"heating off"` iff
`20 ≤ actual < 20 + THERMO_HEAT_TOLERANCE`; at
`actual ≥ 20 + THERMO_HEAT_TOLERANCE` it instead requests `"cooling on"`
(whose admission also turns heating off); and at `actual < 20` — the whole
band `[19.5, 20)` included — it requests nothing, so heating stays on until
the actual temperature reaches the full target. -/
theorem hysteresis_swing (sensed : ℚ) (s : TState)
    (hmode : s.thermo_state = "auto") (hsl : s.slider_value = 20)
    (hh : s.heating_state = 1) (hc : s.cooling_state = 0) (hf : s.fan_state = 0) :
    (evalRequest sensed s = some "heating off" ↔
      20 ≤ sensed ∧ sensed < 20 + THERMO_HEAT_TOLERANCE) ∧
    (20 + THERMO_HEAT_TOLERANCE ≤ sensed → evalRequest sensed s = some "cooling on") ∧
    (sensed < 20 → evalRequest sensed s = none) ∧
    (∀ s2 : TState, s2.thermo_state = "auto" → s2.slider_value = 20 →
      s2.heating_state = 0 → sensed ≤ 20 - THERMO_COLD_TOLERANCE →
      evalRequest sensed s2 = some "heating on") := by
  have hchain : evalRequest sensed s =
      if 20 + THERMO_HEAT_TOLERANCE ≤ sensed then some "cooling on"
      else if 20 ≤ sensed then some "heating off"
      else none := by
    unfold evalRequest decisionRequest evalState autoRequest
    simp [hmode, hsl, hh, hc, hf]
  refine ⟨?_, ?_, ?_, ?_⟩
  · rw [hchain]
    constructor
    · intro hx
      split_ifs at hx with h1 h2
      · simp at hx
      · exact ⟨h2, not_le.mp h1⟩
    · rintro ⟨hge, hlt⟩
      rw [if_neg (not_le.mpr hlt), if_pos hge]
  · intro hge; rw [hchain, if_pos hge]
  · intro hlt
    have htol : (0 : ℚ) < THERMO_HEAT_TOLERANCE := by decide
    rw [hchain, if_neg (by linarith), if_neg (not_le.mpr hlt)]
  · intro s2 h1 h2 h3 h4
    unfold evalRequest decisionRequest evalState autoRequest
    simp [h1, h2, h3, h4]

unseal Rat.add Rat.sub in
/-- Witness for C3 (amended) at actual temperature 20.2: the evaluation
requests `"heating off"`. -/
theorem hysteresis_swing_witness :
    evalRequest (mkRat 101 5) hysteresisHeatingOn = some "heating off" :=
  (hysteresis_swing (mkRat 101 5) hysteresisHeatingOn rfl rfl rfl rfl rfl).1.mpr
    ⟨by decide, by decide⟩

/-- A single sensor access, as the control loop performs it.  From
src/Thermostat.py:587 and 708-713: every access is a bare
`dht22.temperature()` / `dht22.humidity()` — the module contains no
try/except around them, no cached last-good reading, and no default
constant — so the control loop receives exactly the outcome of the read
(`some` a (temperature, humidity) pair, or `none` for a read fault, which in
the running program surfaces as an uncaught driver exception). -/
def sensorRead (outcome : Option (ℚ × ℚ)) : Option (ℚ × ℚ) := outcome

/-- The outcomes the control loop receives over a session of sensor reads. -/
def loopReadings (outcomes : List (Option (ℚ × ℚ))) : List (Option (ℚ × ℚ)) :=
  outcomes.map sensorRead

/-- Modelled from the spec (for contrast — this mechanism is absent from the
source): one step of the fallback reader the claim describes, returning the
reading and the updated last-known-good cache; a fault falls back to the
cache when one exists, else to the documented default 20°C/50%RH. -/
def specFallbackStep : Option (ℚ × ℚ) → Option (ℚ × ℚ) → (ℚ × ℚ) × Option (ℚ × ℚ)
  | _, some r => (r, some r)
  | some g, none => (g, some g)
  | none, none => ((20, 50), none)

/-- Modelled from the spec: the readings the fallback reader would deliver
over a session, threading the last-known-good cache. -/
def specFallbackReads (last : Option (ℚ × ℚ)) : List (Option (ℚ × ℚ)) → List (ℚ × ℚ)
  | [] => []
  | o :: rest =>
      (specFallbackStep last o).1 :: specFallbackReads (specFallbackStep last o).2 rest

/-- C6 counterexample: after one good reading of (21.0, 45), three faulty
reads do NOT return (21.0, 45) — they reach the control loop as faults,
because the code keeps no last known good reading. -/
theorem sensor_fallback_counterexample :
    loopReadings [some (21, 45), none, none, none] ≠
      [some (21, 45), some (21, 45), some (21, 45), some (21, 45)] ∧
    sensorRead none = none := by decide

/-- C6 amended: the code applies no fallback at all — the control loop
receives every sensor outcome unchanged, a fault included (which the running
program surfaces as an uncaught exception); there is no last-known-good
cache and no safe default.  The fallback reader described by the spec
(modelled here as `specFallbackReads`) would instead deliver (21.0, 45) for
all three faults of the claim's scenario. -/
theorem sensor_passthrough :
    (∀ outcomes, loopReadings outcomes = outcomes) ∧
    loopReadings [some (21, 45), none, none, none] = [some (21, 45), none, none, none] ∧
    specFallbackReads none [some (21, 45), none, none, none] =
      [(21, 45), (21, 45), (21, 45), (21, 45)] := by
  refine ⟨fun outcomes => ?_, by decide, by decide⟩
  induction outcomes with
  | nil => rfl
  | cons o rest ih => simpa [loopReadings, sensorRead] using ih

/-- The outcome of the network-join loop of `comms_init`
(src/Thermostat.py:250-254) on a finite sequence of `wlan.isconnected()`
probe results: either the loop exits at the first successful probe (with the
remaining probes unconsumed), or it has consumed every probe and is still
spinning. -/
inductive JoinOutcome where
  | joined (rest : List Bool)
  | waiting
  deriving DecidableEq, Repr

/-- From src/Thermostat.py:250-254: `wlan.connect(...)` followed by
`while not wlan.isconnected(): pass`.  The loop spins until the first
successful probe; the module maintains no failure counter for any channel
and contains no restart call (`machine.reset` or similar appears nowhere),
and the MQTT session below the loop is attempted once with no retry. -/
def wifiJoinLoop : List Bool → JoinOutcome
  | [] => .waiting
  | b :: rest => if b then .joined rest else wifiJoinLoop rest

/-- C7 counterexample: three consecutive probe failures do not trigger a
restart — the join loop is simply still spinning — while two failures
followed by a success exit the loop (there is no counter to reset and no
restart to avoid). -/
theorem restart_escalation_counterexample :
    wifiJoinLoop [false, false, false] = JoinOutcome.waiting ∧
    wifiJoinLoop [false, false, true] = JoinOutcome.joined [] := by decide

/-- C7 amended: `comms_init` has no consecutive-failure counter and no
restart escalation for either channel: its network-join loop busy-waits
unboundedly — it exits exactly when some probe succeeds, and any run of
failures (three included) leaves it spinning, never restarting. -/
theorem join_loop_no_restart (probes : List Bool) :
    wifiJoinLoop probes = JoinOutcome.waiting ↔ ∀ b ∈ probes, b = false := by
  induction probes with
  | nil => simp [wifiJoinLoop]
  | cons b rest ih => by_cases hb : b <;> simp [wifiJoinLoop, hb, ih]

/-- The C10 scenario, step by step: from `thermostat_init`, receive the
remote heater-on command (Manual mode, heating turns on, cycle lock 5s);
receive master-off (heat-off is requested but deferred by the lock); five
lock ticks (the last one re-runs the decision logic, which turns heating off
and re-arms the lock); five more ticks (lock expires with nothing to do);
two presses of the mode button (off → auto → man).  All reads sense 20°C. -/
def persistTrace : TState :=
  List.foldl (fun s f => (f s).1) (thermostat_init 20)
    [rcv_heater_status "ON" 20, rcv_master_off 20,
     tdelayed_start 20, tdelayed_start 20, tdelayed_start 20, tdelayed_start 20,
     tdelayed_start 20,
     tdelayed_start 20, tdelayed_start 20, tdelayed_start 20, tdelayed_start 20,
     tdelayed_start 20,
     change_mode 20, change_mode 20]

unseal Rat.add Rat.sub in
/-- C10: the pending manual command is never cleared once set — every
control-loop step maps a set `manual_command` to a set one (no step resets
it to the initial `0`) — and concretely, in the `persistTrace` scenario the
first evaluation after re-entering Manual mode re-applies the remembered
`"heating on"` and turns heating back on with no new user input. -/
theorem manual_command_persists :
    (∀ s s2 : TState, Step s s2 → s.manual_command ≠ none → s2.manual_command ≠ none) ∧
    (persistTrace.thermo_state = "man" ∧ persistTrace.heating_state = 1 ∧
     persistTrace.manual_command = some "heating on") := by
  constructor
  · intro s s2 hs hne
    cases hs with
    | eval t s => simpa [(tdl_fixed t s).2.1] using hne
    | modeBtn t s =>
        unfold change_mode
        simpa [(tdl_fixed t { s with
          thermo_state := nextMode s.thermo_state }).2.1] using hne
    | btnA t s _ =>
        unfold btnA_press
        rw [(tdl_fixed t _).2.1]
        split_ifs <;> simp_all
    | btnB t s _ =>
        unfold btnB_press
        rw [(tdl_fixed t _).2.1]
        split_ifs <;> simp_all
    | btnC t s _ =>
        unfold btnC_press
        rw [(tdl_fixed t _).2.1]
        split_ifs <;> simp_all
    | rcvTarget v t s =>
        unfold rcv_target_temp
        simpa [(tdl_fixed t { s with
          slider_value := sliderSet (pyRound v) }).2.1] using hne
    | rcvMode tok t s =>
        unfold rcv_thermo_state
        simpa [(tdl_fixed t { s with
          thermo_state := if tok = "fan_only" then "fan" else tok }).2.1] using hne
    | rcvHeater p t s =>
        unfold rcv_heater_status
        rw [(tdl_fixed t _).2.1]
        simp
    | rcvAC p t s =>
        unfold rcv_ac_status
        rw [(tdl_fixed t _).2.1]
        simp
    | rcvMasterOff t s =>
        unfold rcv_master_off
        simpa [(tdl_fixed t { s with thermo_state := "off" }).2.1] using hne
    | slider v t s =>
        unfold slider_target_changed
        simpa [(tdl_fixed t { s with slider_value := sliderSet v }).2.1] using hne
    | delayTick t s _ =>
        unfold tdelayed_start
        split_ifs
        · simpa [(tdl_fixed t { s with delay := s.delay - 1 }).2.1] using hne
        · simpa using hne
  · exact ⟨by decide, by decide, by decide⟩

/-- Witness for C10: one concrete step (an evaluation) from a state whose
manual command is set. -/
theorem manual_command_persists_witness :
    ((thermostat_decision_logic 20
        ((rcv_heater_status "ON" 20 (thermostat_init 20)).1)).1).manual_command ≠ none :=
  manual_command_persists.1 _ _
    (Step.eval 20 ((rcv_heater_status "ON" 20 (thermostat_init 20)).1)) (by decide)

end Thermostat
